import Mathlib

/-!
Shallow embedding of the newtonbotics admin panel's core logic:

* the project-request permission evaluator `getProjectRequestPermissions`
  and status badge mapper `getStatusBadge`
  (src/src/components/EditUserModal.tsx),
* the soft-delete gating and listing-endpoint selection of the
  project-requests page (src/src/app/project-requests/page.tsx),
* the user-detail proxy route's response-envelope normalization
  (src/unnamed/part_000, `GET` handler),
* the paginated users-list drain loop (src/src/app/users/page.tsx,
  `fetchUsers`),

together with theorems checking the specification's claims about them.

JavaScript/TypeScript conventions are modelled explicitly: optional
fields become `Option`, the string-falsiness of `x || y` chains becomes
`jsOrStr`, `===`/`!==` on strings become `==`/`!=` on `String`.
-/

/-- JS `a || b` for a possibly-absent string `a`: the empty string and
`undefined` are falsy, so they fall through to `b`. -/
def jsOrStr (a : Option String) (b : String) : String :=
  match a with
  | none => b
  | some s => if s = "" then b else s

/-- Embedded-object form of `submittedBy` (TS `{ _id?: string; id?: string }`). -/
structure SubmittedByRef where
  _id : Option String
  id : Option String
  deriving Repr, DecidableEq

/-- TS union `string | { _id?: string; id?: string }` for `submittedBy`. -/
inductive SubmittedBy where
  | str (s : String)
  | obj (o : SubmittedByRef)
  deriving Repr, DecidableEq

/-- Optional attached-document descriptor of a project request. -/
structure DocumentInfo where
  originalName : Option String
  documentName : Option String
  url : Option String
  publicId : Option String
  size : Option Nat
  bytes : Option Nat
  deriving Repr, DecidableEq

/-- ProjectRequest as consumed by the permission evaluator. In the source
the EditUserModal interface types `status` as the five-literal union; the
project-requests page additionally carries `isDeleted?: boolean` and feeds
its rows to the evaluator, so `status` is modelled as `String` (the enum
values are particular strings) and `isDeleted` is included. -/
structure ProjectRequest where
  _id : Option String
  id : Option String
  status : String
  submittedBy : Option SubmittedBy
  submittedById : Option String
  document : Option DocumentInfo
  isDeleted : Option Bool
  deriving Repr, DecidableEq

/-- CurrentUser (the actor), TS `{ id?: string; _id?: string; role?: string }`. -/
structure CurrentUser where
  id : Option String
  _id : Option String
  role : Option String
  deriving Repr, DecidableEq

/-- Source: `const userId = currentUser.id || currentUser._id || ''`. -/
def userId (currentUser : CurrentUser) : String :=
  jsOrStr currentUser.id (jsOrStr currentUser._id "")

/-- Source: `typeof projectRequest.submittedBy === 'string' ?
projectRequest.submittedBy : projectRequest.submittedBy?._id ||
projectRequest.submittedBy?.id || projectRequest.submittedById || ''`. -/
def submittedByIdOf (projectRequest : ProjectRequest) : String :=
  match projectRequest.submittedBy with
  | some (.str s) => s
  | some (.obj o) => jsOrStr o._id (jsOrStr o.id (jsOrStr projectRequest.submittedById ""))
  | none => jsOrStr projectRequest.submittedById ""

/-- Source: `const isOwner = userId && submittedById &&
userId.toString() === submittedById.toString()` (used as a boolean). -/
def isOwner (projectRequest : ProjectRequest) (currentUser : CurrentUser) : Bool :=
  userId currentUser != "" && submittedByIdOf projectRequest != "" &&
    userId currentUser == submittedByIdOf projectRequest

/-- Source: `const isAdmin = currentUser.role === 'admin'`. -/
def isAdmin (currentUser : CurrentUser) : Bool :=
  currentUser.role == some "admin"

/-- Source: `const isMentorOrHigher =
['mentor', 'researcher', 'admin'].includes(currentUser.role || '')`. -/
def isMentorOrHigher (currentUser : CurrentUser) : Bool :=
  ["mentor", "researcher", "admin"].contains (jsOrStr currentUser.role "")

/-- Source: `const isApproved = projectRequest.status === 'approved'`. -/
def isApproved (projectRequest : ProjectRequest) : Bool :=
  projectRequest.status == "approved"

/-- The record of capability flags returned by the evaluator. -/
structure PermissionSet where
  canEdit : Bool
  canChangeStatus : Bool
  canViewDocument : Bool
  canDelete : Bool
  canApprove : Bool
  canReject : Bool
  isReadOnly : Bool
  showAdminBadge : Bool
  deriving Repr, DecidableEq

/-- The degenerate all-false, read-only record returned when either input
is absent (`if (!projectRequest || !currentUser) return \x7b ... \x7d`). -/
def noPermissions : PermissionSet :=
  { canEdit := false
    canChangeStatus := false
    canViewDocument := false
    canDelete := false
    canApprove := false
    canReject := false
    isReadOnly := true
    showAdminBadge := false }

/-- Transcription of `getProjectRequestPermissions` from
src/src/components/EditUserModal.tsx. -/
def getProjectRequestPermissions (projectRequest : Option ProjectRequest)
    (currentUser : Option CurrentUser) : PermissionSet :=
  match projectRequest, currentUser with
  | some projectRequest, some currentUser =>
    { canEdit :=
        isAdmin currentUser ||
        (isOwner projectRequest currentUser && !isApproved projectRequest &&
          projectRequest.status != "rejected") ||
        (isMentorOrHigher currentUser && !isApproved projectRequest)
      canChangeStatus :=
        isAdmin currentUser ||
        (isMentorOrHigher currentUser && !isApproved projectRequest)
      canViewDocument :=
        isAdmin currentUser || isOwner projectRequest currentUser ||
        isMentorOrHigher currentUser
      canDelete :=
        isAdmin currentUser ||
        (isOwner projectRequest currentUser &&
          projectRequest.status != "approved" &&
          projectRequest.status != "under_review")
      canApprove := isMentorOrHigher currentUser && !isApproved projectRequest
      canReject := isMentorOrHigher currentUser && !isApproved projectRequest
      isReadOnly := isApproved projectRequest && !isAdmin currentUser
      showAdminBadge := isApproved projectRequest && isAdmin currentUser }
  | _, _ => noPermissions

/-- Wrapper `canEdit` from the source. -/
def canEdit (projectRequest : Option ProjectRequest) (currentUser : Option CurrentUser) : Bool :=
  (getProjectRequestPermissions projectRequest currentUser).canEdit

/-- Wrapper `canChangeStatus` from the source. -/
def canChangeStatus (projectRequest : Option ProjectRequest) (currentUser : Option CurrentUser) : Bool :=
  (getProjectRequestPermissions projectRequest currentUser).canChangeStatus

/-- Wrapper `canViewDocument` from the source. -/
def canViewDocument (projectRequest : Option ProjectRequest) (currentUser : Option CurrentUser) : Bool :=
  (getProjectRequestPermissions projectRequest currentUser).canViewDocument

/-- Display tuple returned by `getStatusBadge`; `badge` is the optional
extra field attached only for the approved status. -/
structure StatusBadgeInfo where
  color : String
  text : String
  icon : String
  badge : Option String
  deriving Repr, DecidableEq

/-- Transcription of `getStatusBadge` from
src/src/components/EditUserModal.tsx: a falsy status (undefined or the
empty string) yields the Unknown tuple; otherwise the lookup table is
consulted and a non-listed status falls back to `badges.pending`
(`return badges[status] || badges.pending`). -/
def getStatusBadge (status : Option String) (canEdit : Bool) : StatusBadgeInfo :=
  match status with
  | none =>
    { color := "bg-gray-100 text-gray-800", text := "Unknown", icon := "clock", badge := none }
  | some s =>
    if s = "" then
      { color := "bg-gray-100 text-gray-800", text := "Unknown", icon := "clock", badge := none }
    else if s = "pending" then
      { color := "bg-yellow-100 text-yellow-800", text := "Pending", icon := "clock", badge := none }
    else if s = "under_review" then
      { color := "bg-blue-100 text-blue-800", text := "Under Review", icon := "eye", badge := none }
    else if s = "approved" then
      { color := "bg-green-100 text-green-800", text := "Approved", icon := "check-circle"
        badge := some (if canEdit then "Admin-Only Editing" else "Read-Only") }
    else if s = "rejected" then
      { color := "bg-red-100 text-red-800", text := "Rejected", icon := "times-circle", badge := none }
    else if s = "on_hold" then
      { color := "bg-gray-100 text-gray-800", text := "On Hold", icon := "pause", badge := none }
    else
      { color := "bg-yellow-100 text-yellow-800", text := "Pending", icon := "clock", badge := none }

/-- Soft-delete gate on the project-requests listing page: the row's
permission-gated action buttons are rendered inside
`\x7b!request.isDeleted && (() => \x7b const permissions =
getProjectRequestPermissions(request, currentUser); ... \x7d)()\x7d`,
so permissions are computed and used only when `isDeleted` is falsy. -/
def rowActionPermissions (request : ProjectRequest)
    (currentUser : Option CurrentUser) : Option PermissionSet :=
  if request.isDeleted.getD false then none
  else some (getProjectRequestPermissions (some request) currentUser)

/-- Filter state of the project-requests listing page (the fields that
determine which listing endpoint is queried). -/
structure ProjectRequestFilters where
  search : String
  status : String
  mentorId : String
  submittedBy : String
  showDeleted : Bool
  deletedBy : String
  sortBy : String
  sortOrder : String
  deriving Repr, DecidableEq

/-- Initial `useState` value of the page's filters. -/
def defaultFilters : ProjectRequestFilters :=
  { search := ""
    status := ""
    mentorId := ""
    submittedBy := ""
    showDeleted := false
    deletedBy := ""
    sortBy := "deletedAt"
    sortOrder := "desc" }

/-- Source: `const shouldUseDeletedEndpoint =
filters.showDeleted || filters.status === 'deleted'`. -/
def shouldUseDeletedEndpoint (filters : ProjectRequestFilters) : Bool :=
  filters.showDeleted || filters.status == "deleted"

/-- Source: `const endpoint = shouldUseDeletedEndpoint ?
'/api/project-requests/deleted' : '/api/project-requests'`. -/
def listingEndpoint (filters : ProjectRequestFilters) : String :=
  if shouldUseDeletedEndpoint filters then "/api/project-requests/deleted"
  else "/api/project-requests"

/-- Minimal JSON value model for the proxy route's envelopes. -/
inductive JVal where
  | str (s : String)
  | bool (b : Bool)
  | num (n : Int)
  | null
  | obj (fields : List (String × JVal))
  | arr (elems : List JVal)

/-- Field lookup on a JSON object (`none` on non-objects, modelling
JS optional chaining). -/
def jLookup (v : JVal) (key : String) : Option JVal :=
  match v with
  | .obj fields => fields.lookup key
  | _ => none

/-- Whether a JSON object carries a given field. -/
def jHasField (v : JVal) (key : String) : Bool :=
  (jLookup v key).isSome

/-- JS truthiness of a JSON value. -/
def jsTruthy : JVal → Bool
  | .str s => s != ""
  | .bool b => b
  | .num n => n != 0
  | .null => false
  | .obj _ => true
  | .arr _ => true

/-- JS `a || b` on a possibly-absent JSON value. -/
def jsOrJ (a : Option JVal) (b : JVal) : JVal :=
  match a with
  | none => b
  | some v => if jsTruthy v then v else b

/-- JS `String.prototype.includes`: substring containment, stated over
the character lists so that it computes by reduction. -/
def jsIncludes (s pat : String) : Bool :=
  decide (pat.toList <:+: s.toList)

/-- JS `!text || text.trim().length === 0`: the trimmed text is empty
exactly when every character is whitespace, stated over the character
list so that it computes by reduction. -/
def jsBlank (text : String) : Bool :=
  text == "" || text.toList.all Char.isWhitespace

/-- Fetch's `Response.ok`: status in the range 200-299. -/
def jsOk (status : Nat) : Bool :=
  decide (200 ≤ status) && decide (status < 300)

/-- Backend response as observed by the proxy route: HTTP status, the
content-type header (`'' ` when absent), and the body text (`none` models
`response.text()` throwing, caught by the inner try/catch). -/
structure BackendResponse where
  status : Nat
  contentType : String
  text : Option String

/-- Result of a proxy route invocation: the HTTP status and JSON body
produced by `NextResponse.json`. -/
structure ProxyResult where
  status : Nat
  body : JVal

/-- Whether a JSON value is the null literal; used to model the one
place the route's plain property access can throw (`x.message` raises a
TypeError exactly when `x` is null, since `data` is never undefined). -/
def jIsNull : JVal → Bool
  | .null => true
  | _ => false

/-- The `let data` computation of the `GET` handler of the user-detail
proxy route (src/unnamed/part_000, first handler): an unreadable body
(`response.text()` throwing, inner catch) yields a synthetic
failed-to-read object; an empty or whitespace body yields the empty
object; a JSON content-type body is parsed (`parseJson` abstracts
`JSON.parse`, `none` = parse failure, replaced by a synthetic
invalid-JSON object); any other body yields a synthetic non-JSON
object whose message depends on a 404 status. -/
def backendData (parseJson : String → Option JVal) (id : String)
    (resp : BackendResponse) : JVal :=
  let isJson := jsIncludes resp.contentType "application/json"
  match resp.text with
  | none =>
    .obj [("message",
           .str ("Failed to read backend response (" ++ toString resp.status ++ ")"))]
  | some text =>
    if jsBlank text then .obj []
    else if isJson then
      match parseJson text with
      | some v => v
      | none =>
        .obj [("message",
               .str ("Backend returned invalid JSON (" ++ toString resp.status ++ ")")),
              ("error", .str "Invalid JSON response from backend")]
    else
      .obj [("message",
             .str (if resp.status == 404 then
                     "User with ID \"" ++ id ++ "\" not found"
                   else
                     "Backend returned " ++ toString resp.status ++ " error")),
            ("error", .str "Non-JSON response from backend")]

/-- Transcription of the `GET` handler of the user-detail proxy route
(src/unnamed/part_000, first handler). `token` is the `authorization`
header; `resp = none` models the outer try/catch catching a failed
`fetch`. On an ok backend status the (possibly empty or synthetic)
`data` is returned as-is with HTTP 200. On a non-ok status the source
builds the envelope from the plain access `data.message` — which throws
a TypeError when `data` is JSON null (a non-ok response with JSON
content-type and body "null"), so the outer catch then answers 500
"Internal server error"; otherwise the `data.message ||
data.error?.message || ...` chain fills a success-false envelope carrying
the backend's status. -/
def getUserRoute (parseJson : String → Option JVal) (id : String)
    (token : Option String) (resp : Option BackendResponse) : ProxyResult :=
  match token with
  | none =>
    { status := 401
      body := .obj [("success", .bool false),
                    ("message", .str "No authorization token provided")] }
  | some _ =>
    match resp with
    | none =>
      { status := 500
        body := .obj [("success", .bool false),
                      ("message", .str "Internal server error")] }
    | some resp =>
      let data := backendData parseJson id resp
      if jsOk resp.status then
        { status := 200, body := data }
      else if jIsNull data then
        { status := 500
          body := .obj [("success", .bool false),
                        ("message", .str "Internal server error")] }
      else
        { status := resp.status
          body := .obj [("success", .bool false),
                        ("message",
                         jsOrJ (jLookup data "message")
                           (jsOrJ ((jLookup data "error").bind (fun e => jLookup e "message"))
                             (.str ("Failed to fetch user (" ++ toString resp.status ++ ")"))))] }

/-- Trivial `JSON.parse` oracle that always fails; used to instantiate
the abstract parser at concrete inputs where the body is empty. -/
def noParse : String → Option JVal := fun _ => none

/-- `JSON.parse` oracle returning the JSON null literal, as `JSON.parse`
does on the body "null"; used to exercise the throwing error path at a
concrete input. -/
def nullParse : String → Option JVal := fun _ => some .null

/-- Raw user row as delivered by the backend before ID normalization. -/
structure RawUser where
  id : Option String
  _id : Option String
  deriving Repr, DecidableEq

/-- User row after the page's ID normalization. -/
structure NormalizedUser where
  id : Option String
  _id : Option String
  deriving Repr, DecidableEq

/-- Source (users page): `const resolvedId = typeof user.id === 'string'
&& user.id ? user.id : typeof user._id === 'string' && user._id ?
user._id : ''` followed by `id: resolvedId || undefined,
_id: user._id || resolvedId || undefined`. -/
def normalizeUser (user : RawUser) : NormalizedUser :=
  let resolvedId := jsOrStr user.id (jsOrStr user._id "")
  { id := if resolvedId = "" then none else some resolvedId
    _id :=
      match user._id with
      | some t => if t != "" then some t
                  else if resolvedId = "" then none else some resolvedId
      | none => if resolvedId = "" then none else some resolvedId }

/-- Source: `rawUsers.map(...).filter((user) => user.id)`. -/
def normalizeUsers (rawUsers : List RawUser) : List NormalizedUser :=
  (rawUsers.map normalizeUser).filter (fun user => user.id.getD "" != "")

/-- Abstract users backend: the finite user table plus, per requested
`skip` offset, the reported `pagination.hasMore` flag (already coerced to
a boolean, optional chaining folded in) and whether the HTTP response at
that offset is ok. -/
structure UsersBackend where
  users : List RawUser
  hasMoreAt : Nat → Bool
  okAt : Nat → Bool

/-- One page served by the backend: the slice of the user table starting
at `skip`, at most `limit` entries. -/
def pageAt (backend : UsersBackend) (skip limit : Nat) : List RawUser :=
  (backend.users.drop skip).take limit

/-- Transcription of the `while (hasMore)` drain in `fetchUsers`
(src/src/app/users/page.tsx), with an explicit fuel parameter; `none`
means the fuel ran out before the loop exited. A non-ok response breaks
the loop with the users gathered so far; a page that normalizes to zero
users ends it; otherwise the page is accumulated and the loop continues
exactly when `pagination?.hasMore || normalizedUsers.length === limit`
(limit = 100), advancing `skip` by the limit. -/
def fetchUsersLoop (backend : UsersBackend) : Nat → Nat → List NormalizedUser →
    Option (List NormalizedUser)
  | 0, _, _ => none
  | fuel + 1, skip, allFetchedUsers =>
    if backend.okAt skip = false then some allFetchedUsers
    else
      let normalizedUsers := normalizeUsers (pageAt backend skip 100)
      if normalizedUsers.length = 0 then some allFetchedUsers
      else if backend.hasMoreAt skip || normalizedUsers.length == 100 then
        fetchUsersLoop backend fuel (skip + 100) (allFetchedUsers ++ normalizedUsers)
      else some (allFetchedUsers ++ normalizedUsers)

/-- The loop's stop condition at a given offset: a non-ok response, a
page normalizing to zero users, or the has-more flag false together with
a short page. -/
def drainStops (backend : UsersBackend) (skip : Nat) : Bool :=
  !backend.okAt skip ||
  (normalizeUsers (pageAt backend skip 100)).length == 0 ||
  (!backend.hasMoreAt skip && decide ((normalizeUsers (pageAt backend skip 100)).length < 100))

/-- Concrete project request with a given status and all optional fields
absent; used to instantiate theorems at concrete inputs. -/
def baseRequest (status : String) : ProjectRequest :=
  { _id := none
    id := none
    status := status
    submittedBy := none
    submittedById := none
    document := none
    isDeleted := none }

/-- Concrete actor with identifier "u1" and a given role. -/
def roleUser (role : String) : CurrentUser :=
  { id := some "u1", _id := none, role := some role }

/-- Concrete rejected request submitted by "u1" (bare-string form). -/
def rejectedOwnedRequest : ProjectRequest :=
  { baseRequest "rejected" with submittedBy := some (.str "u1") }

/-- C1: for every approved request, a non-admin actor is frozen to
read-only (isReadOnly true, canEdit and canChangeStatus false), while an
admin actor keeps canEdit and is shown the admin badge. -/
theorem approved_requests_gate (projectRequest : ProjectRequest) (currentUser : CurrentUser)
    (happroved : projectRequest.status = "approved") :
    (currentUser.role ≠ some "admin" →
      (getProjectRequestPermissions (some projectRequest) (some currentUser)).isReadOnly = true ∧
      (getProjectRequestPermissions (some projectRequest) (some currentUser)).canEdit = false ∧
      (getProjectRequestPermissions (some projectRequest) (some currentUser)).canChangeStatus = false) ∧
    (currentUser.role = some "admin" →
      (getProjectRequestPermissions (some projectRequest) (some currentUser)).showAdminBadge = true ∧
      (getProjectRequestPermissions (some projectRequest) (some currentUser)).canEdit = true) := by
  have hap : isApproved projectRequest = true := by
    simp [isApproved, happroved]
  constructor
  · intro hrole
    have hadmin : isAdmin currentUser = false := by
      simp [isAdmin, beq_eq_false_iff_ne]
      exact hrole
    simp [getProjectRequestPermissions, hadmin, hap]
  · intro hrole
    have hadmin : isAdmin currentUser = true := by
      simp [isAdmin, hrole]
    simp [getProjectRequestPermissions, hadmin, hap]

/-- Witness for C1 at concrete inputs: an approved request with a member
actor and with an admin actor. -/
theorem approved_requests_gate_witness :
    ((getProjectRequestPermissions (some (baseRequest "approved")) (some (roleUser "member"))).isReadOnly = true ∧
     (getProjectRequestPermissions (some (baseRequest "approved")) (some (roleUser "member"))).canEdit = false ∧
     (getProjectRequestPermissions (some (baseRequest "approved")) (some (roleUser "member"))).canChangeStatus = false) ∧
    ((getProjectRequestPermissions (some (baseRequest "approved")) (some (roleUser "admin"))).showAdminBadge = true ∧
     (getProjectRequestPermissions (some (baseRequest "approved")) (some (roleUser "admin"))).canEdit = true) :=
  ⟨(approved_requests_gate (baseRequest "approved") (roleUser "member") rfl).1 (by decide),
   (approved_requests_gate (baseRequest "approved") (roleUser "admin") rfl).2 rfl⟩

/-- C3: ownership holds exactly when the actor identifier and the
extracted submitter identifier are both non-empty and equal; a
bare-string submitter "u1" and an embedded-object submitter with
_id "u1" both match an actor with id "u1", and an empty identifier on
either side never matches. -/
theorem ownership_detection :
    (∀ (projectRequest : ProjectRequest) (currentUser : CurrentUser),
       isOwner projectRequest currentUser = true ↔
         userId currentUser ≠ "" ∧ submittedByIdOf projectRequest ≠ "" ∧
         userId currentUser = submittedByIdOf projectRequest) ∧
    (∀ (projectRequest : ProjectRequest) (currentUser : CurrentUser),
       userId currentUser = "" ∨ submittedByIdOf projectRequest = "" →
       isOwner projectRequest currentUser = false) ∧
    isOwner { baseRequest "pending" with submittedBy := some (.str "u1") } (roleUser "member") = true ∧
    isOwner { baseRequest "pending" with
              submittedBy := some (.obj { _id := some "u1", id := none }) } (roleUser "member") = true := by
  refine ⟨?_, ?_, by decide, by decide⟩
  · intro projectRequest currentUser
    simp [isOwner, Bool.and_eq_true, bne_iff_ne, beq_iff_eq, and_assoc]
  · intro projectRequest currentUser h
    rcases h with h | h <;> simp [isOwner, h]

/-- Witness for C3: an actor with no identifier at all owns nothing. -/
theorem ownership_detection_witness :
    isOwner (baseRequest "pending") { id := none, _id := none, role := none } = false :=
  ownership_detection.2.1 (baseRequest "pending") { id := none, _id := none, role := none }
    (Or.inl rfl)

/-- C4: on a rejected request, an owner who is neither admin nor
mentor-or-higher cannot edit, while a mentor-or-higher actor can both
edit and change status. -/
theorem rejected_requests_asymmetry (projectRequest : ProjectRequest) (currentUser : CurrentUser)
    (hrejected : projectRequest.status = "rejected") :
    (isOwner projectRequest currentUser = true → isAdmin currentUser = false →
      isMentorOrHigher currentUser = false →
      (getProjectRequestPermissions (some projectRequest) (some currentUser)).canEdit = false) ∧
    (isMentorOrHigher currentUser = true →
      (getProjectRequestPermissions (some projectRequest) (some currentUser)).canEdit = true ∧
      (getProjectRequestPermissions (some projectRequest) (some currentUser)).canChangeStatus = true) := by
  have hap : isApproved projectRequest = false := by
    simp [isApproved, hrejected]
  have hne : (projectRequest.status != "rejected") = false := by
    simp [hrejected]
  constructor
  · intro howner hadmin hmentor
    simp [getProjectRequestPermissions, howner, hadmin, hmentor, hap, hne]
  · intro hmentor
    have : isAdmin currentUser || true = true := by simp
    simp [getProjectRequestPermissions, hmentor, hap, hne]

/-- Witness for C4: a rejected request submitted by "u1", evaluated for
the member owner "u1" and for a mentor. -/
theorem rejected_requests_asymmetry_witness :
    (getProjectRequestPermissions (some rejectedOwnedRequest) (some (roleUser "member"))).canEdit = false ∧
    ((getProjectRequestPermissions (some rejectedOwnedRequest) (some (roleUser "mentor"))).canEdit = true ∧
     (getProjectRequestPermissions (some rejectedOwnedRequest) (some (roleUser "mentor"))).canChangeStatus = true) :=
  ⟨(rejected_requests_asymmetry rejectedOwnedRequest (roleUser "member") rfl).1
      (by decide) (by decide) (by decide),
   (rejected_requests_asymmetry rejectedOwnedRequest (roleUser "mentor") rfl).2 (by decide)⟩

/-- C6: whenever either input is absent, the evaluator returns the record
with every capability false and isReadOnly true (and, being a total Lean
function, it never fails on any input). -/
theorem absent_inputs_degenerate (projectRequest : Option ProjectRequest)
    (currentUser : Option CurrentUser)
    (habsent : projectRequest = none ∨ currentUser = none) :
    getProjectRequestPermissions projectRequest currentUser =
      { canEdit := false
        canChangeStatus := false
        canViewDocument := false
        canDelete := false
        canApprove := false
        canReject := false
        isReadOnly := true
        showAdminBadge := false } := by
  rcases habsent with h | h
  · subst h
    cases currentUser <;> rfl
  · subst h
    cases projectRequest <;> rfl

/-- Witness for C6 at the fully absent input pair. -/
theorem absent_inputs_degenerate_witness :
    getProjectRequestPermissions none none =
      { canEdit := false
        canChangeStatus := false
        canViewDocument := false
        canDelete := false
        canApprove := false
        canReject := false
        isReadOnly := true
        showAdminBadge := false } :=
  absent_inputs_degenerate none none (Or.inl rfl)

/-- C9: for every input pair the returned capability set satisfies the
hierarchy canApprove → canChangeStatus → canEdit → canViewDocument. -/
theorem capability_hierarchy (projectRequest : Option ProjectRequest)
    (currentUser : Option CurrentUser) :
    ((getProjectRequestPermissions projectRequest currentUser).canApprove = true →
      (getProjectRequestPermissions projectRequest currentUser).canChangeStatus = true) ∧
    ((getProjectRequestPermissions projectRequest currentUser).canChangeStatus = true →
      (getProjectRequestPermissions projectRequest currentUser).canEdit = true) ∧
    ((getProjectRequestPermissions projectRequest currentUser).canEdit = true →
      (getProjectRequestPermissions projectRequest currentUser).canViewDocument = true) := by
  cases projectRequest with
  | none => simp [getProjectRequestPermissions, noPermissions]
  | some projectRequest =>
    cases currentUser with
    | none => simp [getProjectRequestPermissions, noPermissions]
    | some currentUser =>
      cases hA : isAdmin currentUser <;>
        cases hM : isMentorOrHigher currentUser <;>
          cases hO : isOwner projectRequest currentUser <;>
            cases hAp : isApproved projectRequest <;>
              simp [getProjectRequestPermissions, hA, hM, hO, hAp]

/-- Witness for C9 at a pending request and a mentor actor, where
canApprove, canChangeStatus and canEdit all hold. -/
theorem capability_hierarchy_witness :
    (getProjectRequestPermissions (some (baseRequest "pending")) (some (roleUser "mentor"))).canChangeStatus = true ∧
    (getProjectRequestPermissions (some (baseRequest "pending")) (some (roleUser "mentor"))).canEdit = true ∧
    (getProjectRequestPermissions (some (baseRequest "pending")) (some (roleUser "mentor"))).canViewDocument = true :=
  ⟨(capability_hierarchy (some (baseRequest "pending")) (some (roleUser "mentor"))).1 (by decide),
   (capability_hierarchy (some (baseRequest "pending")) (some (roleUser "mentor"))).2.1 (by decide),
   (capability_hierarchy (some (baseRequest "pending")) (some (roleUser "mentor"))).2.2 (by decide)⟩

/-- C10: isReadOnly and showAdminBadge are never both true, and for
present inputs their disjunction is true exactly when the request is
approved. -/
theorem readonly_badge_partition :
    (∀ (projectRequest : Option ProjectRequest) (currentUser : Option CurrentUser),
       ((getProjectRequestPermissions projectRequest currentUser).isReadOnly &&
        (getProjectRequestPermissions projectRequest currentUser).showAdminBadge) = false) ∧
    (∀ (projectRequest : ProjectRequest) (currentUser : CurrentUser),
       ((getProjectRequestPermissions (some projectRequest) (some currentUser)).isReadOnly ||
        (getProjectRequestPermissions (some projectRequest) (some currentUser)).showAdminBadge) =
       isApproved projectRequest) := by
  constructor
  · intro projectRequest currentUser
    cases projectRequest with
    | none => simp [getProjectRequestPermissions, noPermissions]
    | some projectRequest =>
      cases currentUser with
      | none => simp [getProjectRequestPermissions, noPermissions]
      | some currentUser =>
        cases hA : isAdmin currentUser <;>
          cases hAp : isApproved projectRequest <;>
            simp [getProjectRequestPermissions, hA, hAp]
  · intro projectRequest currentUser
    cases hA : isAdmin currentUser <;>
      cases hAp : isApproved projectRequest <;>
        simp [getProjectRequestPermissions, hA, hAp]

/-- C5 counterexample: the unknown non-empty status "archived" is mapped
to the Pending tuple by `return badges[status] || badges.pending`, not to
the Unknown tuple the claim requires. -/
theorem unknown_status_pending_fallback :
    getStatusBadge (some "archived") false =
      { color := "bg-yellow-100 text-yellow-800", text := "Pending", icon := "clock", badge := none } ∧
    (getStatusBadge (some "archived") false).text ≠ "Unknown" :=
  ⟨rfl, by decide⟩

/-- C5 amended: "pending" maps to the yellow Pending tuple; a missing or
empty status yields the neutral Unknown tuple; an unknown non-empty
status falls back to the Pending tuple (badges.pending), not Unknown;
for "approved" the extra badge field is "Admin-Only Editing" when
canEdit is true and "Read-Only" otherwise. -/
theorem status_badge_mapping :
    (∀ ce : Bool, getStatusBadge (some "pending") ce =
       { color := "bg-yellow-100 text-yellow-800", text := "Pending", icon := "clock", badge := none }) ∧
    (∀ ce : Bool,
       getStatusBadge none ce =
         { color := "bg-gray-100 text-gray-800", text := "Unknown", icon := "clock", badge := none } ∧
       getStatusBadge (some "") ce =
         { color := "bg-gray-100 text-gray-800", text := "Unknown", icon := "clock", badge := none }) ∧
    (∀ (ce : Bool) (s : String), s ≠ "" →
       s ∉ ["pending", "under_review", "approved", "rejected", "on_hold"] →
       getStatusBadge (some s) ce =
         { color := "bg-yellow-100 text-yellow-800", text := "Pending", icon := "clock", badge := none }) ∧
    (getStatusBadge (some "approved") true).badge = some "Admin-Only Editing" ∧
    (getStatusBadge (some "approved") false).badge = some "Read-Only" := by
  refine ⟨fun ce => rfl, fun ce => ⟨rfl, rfl⟩, ?_, rfl, rfl⟩
  intro ce s hempty hmem
  simp only [List.mem_cons, List.mem_singleton, not_or] at hmem
  obtain ⟨h1, h2, h3, h4, h5, _⟩ := hmem
  simp [getStatusBadge, hempty, h1, h2, h3, h4, h5]

/-- Witness for C5 (amended) at the concrete unknown status "archived". -/
theorem status_badge_mapping_witness :
    getStatusBadge (some "archived") true =
      { color := "bg-yellow-100 text-yellow-800", text := "Pending", icon := "clock", badge := none } :=
  status_badge_mapping.2.2.1 true "archived" (by decide) (by decide)

/-- C2 counterexample: the evaluator ignores isDeleted — a soft-deleted
pending request evaluated for an admin actor still yields canEdit true
and isReadOnly false, not the all-false read-only record. -/
theorem deleted_request_still_editable :
    (getProjectRequestPermissions
      (some { baseRequest "pending" with isDeleted := some true })
      (some (roleUser "admin"))).canEdit = true ∧
    (getProjectRequestPermissions
      (some { baseRequest "pending" with isDeleted := some true })
      (some (roleUser "admin"))).isReadOnly = false :=
  ⟨rfl, rfl⟩

/-- C2 amended: soft-deleted requests are made inert at the page level,
not inside the evaluator: the listing renders permission-gated action
buttons only when isDeleted is falsy (so no permissions are computed for
a deleted row), and the default filter state (showDeleted false, empty
status) queries the non-deleted listing endpoint. -/
theorem soft_delete_page_gating :
    (∀ (request : ProjectRequest) (currentUser : Option CurrentUser),
       request.isDeleted = some true →
       rowActionPermissions request currentUser = none) ∧
    shouldUseDeletedEndpoint defaultFilters = false ∧
    listingEndpoint defaultFilters = "/api/project-requests" := by
  refine ⟨?_, rfl, rfl⟩
  intro request currentUser h
  simp [rowActionPermissions, h]

/-- Witness for C2 (amended) at a concrete soft-deleted request. -/
theorem soft_delete_page_gating_witness :
    rowActionPermissions { baseRequest "pending" with isDeleted := some true } none = none :=
  soft_delete_page_gating.1 { baseRequest "pending" with isDeleted := some true } none rfl

/-- C7 counterexample: a 200 backend response with an empty body is
passed through as HTTP 200 with the literal body `\x7b\x7d`, which
carries no `success` field — so the route does not return a
`success: boolean` envelope on every backend response. -/
theorem empty_body_passthrough_no_envelope :
    getUserRoute noParse "u1" (some "Bearer token")
      (some { status := 200, contentType := "application/json", text := some "" }) =
      { status := 200, body := JVal.obj [] } ∧
    jHasField (getUserRoute noParse "u1" (some "Bearer token")
      (some { status := 200, contentType := "application/json", text := some "" })).body
      "success" = false :=
  ⟨rfl, rfl⟩

/-- C7 amended: the route answers JSON on every input; a missing token
yields a 401 success-false envelope and a thrown fetch a 500 one; a
non-ok backend status whose computed data is not JSON null is wrapped in
a success-false envelope carrying a message and the backend's status —
but a non-ok JSON response whose body parses to null makes the plain
`data.message` access throw, and the outer catch answers 500
"Internal server error" instead of the backend's status; an ok backend
response is passed through as-is with HTTP 200, an empty ok body
becoming the bare object `\x7b\x7d` rather than a success-field
envelope. -/
theorem proxy_envelope_normalization :
    (∀ (parseJson : String → Option JVal) (id : String) (resp : Option BackendResponse),
       getUserRoute parseJson id none resp =
         { status := 401
           body := .obj [("success", .bool false),
                         ("message", .str "No authorization token provided")] }) ∧
    (∀ (parseJson : String → Option JVal) (id token : String),
       getUserRoute parseJson id (some token) none =
         { status := 500
           body := .obj [("success", .bool false),
                         ("message", .str "Internal server error")] }) ∧
    (∀ (parseJson : String → Option JVal) (id token : String) (resp : BackendResponse),
       jsOk resp.status = false →
       jIsNull (backendData parseJson id resp) = false →
       (getUserRoute parseJson id (some token) (some resp)).status = resp.status ∧
       jLookup (getUserRoute parseJson id (some token) (some resp)).body "success" =
         some (.bool false) ∧
       (jLookup (getUserRoute parseJson id (some token) (some resp)).body "message").isSome = true) ∧
    (∀ (parseJson : String → Option JVal) (id token : String) (resp : BackendResponse),
       jsOk resp.status = false →
       jIsNull (backendData parseJson id resp) = true →
       getUserRoute parseJson id (some token) (some resp) =
         { status := 500
           body := .obj [("success", .bool false),
                         ("message", .str "Internal server error")] }) ∧
    (∀ (parseJson : String → Option JVal) (id token : String) (resp : BackendResponse)
       (t : String),
       jsOk resp.status = true → resp.text = some t → jsBlank t = true →
       getUserRoute parseJson id (some token) (some resp) =
         { status := 200, body := .obj [] }) := by
  refine ⟨fun parseJson id resp => rfl, fun parseJson id token => rfl, ?_, ?_, ?_⟩
  · intro parseJson id token resp hnotok hnotnull
    simp [getUserRoute, hnotok, hnotnull, jLookup, List.lookup]
  · intro parseJson id token resp hnotok hnull
    simp [getUserRoute, hnotok, hnull]
  · intro parseJson id token resp t hok htext hempty
    simp [getUserRoute, backendData, hok, htext, hempty]

/-- Witness for C7 (amended): a concrete 404 HTML response is wrapped in
a success-false envelope with the backend's status, a concrete 404 JSON
response with body "null" is answered 500 "Internal server error", and a
concrete 204 empty-body ok response is passed through as the bare empty
object. -/
theorem proxy_envelope_normalization_witness :
    ((getUserRoute noParse "u1" (some "t")
        (some { status := 404, contentType := "text/html", text := some "<html>" })).status = 404 ∧
     jLookup (getUserRoute noParse "u1" (some "t")
        (some { status := 404, contentType := "text/html", text := some "<html>" })).body
        "success" = some (.bool false) ∧
     (jLookup (getUserRoute noParse "u1" (some "t")
        (some { status := 404, contentType := "text/html", text := some "<html>" })).body
        "message").isSome = true) ∧
    getUserRoute nullParse "u1" (some "t")
      (some { status := 404, contentType := "application/json", text := some "null" }) =
      { status := 500
        body := .obj [("success", .bool false),
                      ("message", .str "Internal server error")] } ∧
    getUserRoute noParse "u2" (some "t")
      (some { status := 204, contentType := "", text := some "" }) =
      { status := 200, body := .obj [] } :=
  ⟨proxy_envelope_normalization.2.2.1 noParse "u1" "t"
      { status := 404, contentType := "text/html", text := some "<html>" } (by decide) (by decide),
   proxy_envelope_normalization.2.2.2.1 nullParse "u1" "t"
      { status := 404, contentType := "application/json", text := some "null" } (by decide) (by decide),
   proxy_envelope_normalization.2.2.2.2 noParse "u2" "t"
      { status := 204, contentType := "", text := some "" } "" (by decide) rfl (by decide)⟩

/-- Normalization never lengthens a page. -/
theorem normalizeUsers_length_le (rawUsers : List RawUser) :
    (normalizeUsers rawUsers).length ≤ rawUsers.length := by
  calc (normalizeUsers rawUsers).length
      ≤ (rawUsers.map normalizeUser).length := List.length_filter_le _ _
    _ = rawUsers.length := List.length_map _ _

/-- A served page holds at most `limit` users. -/
theorem pageAt_length_le (backend : UsersBackend) (skip limit : Nat) :
    (pageAt backend skip limit).length ≤ limit := by
  simp [pageAt]

/-- Past the end of the user table the served page is empty. -/
theorem pageAt_eq_nil (backend : UsersBackend) (skip limit : Nat)
    (h : backend.users.length ≤ skip) : pageAt backend skip limit = [] := by
  simp [pageAt, List.drop_eq_nil_of_le h]

/-- Concrete backend with two users, always-ok responses and an
always-true has-more flag. -/
def twoUserBackend : UsersBackend :=
  { users := [{ id := some "a", _id := none }, { id := some "b", _id := none }]
    hasMoreAt := fun _ => true
    okAt := fun _ => true }

/-- C8: the users drain loop terminates whenever the backend holds
finitely many users (fuel exceeding the table size past the current
offset always suffices, even if the reported has-more flag never turns
false), and at each offset it returns without fetching further exactly
when the stop condition holds — a non-ok response, a page normalizing to
zero users, or a falsy has-more flag together with a short page —
otherwise continuing at offset skip + 100 with the page accumulated. -/
theorem users_drain_termination :
    (∀ (backend : UsersBackend) (fuel skip : Nat) (allFetchedUsers : List NormalizedUser),
       backend.users.length ≤ skip + fuel →
       (fetchUsersLoop backend (fuel + 1) skip allFetchedUsers).isSome = true) ∧
    (∀ (backend : UsersBackend) (fuel skip : Nat) (allFetchedUsers : List NormalizedUser),
       (drainStops backend skip = false ∧
         fetchUsersLoop backend (fuel + 1) skip allFetchedUsers =
           fetchUsersLoop backend fuel (skip + 100)
             (allFetchedUsers ++ normalizeUsers (pageAt backend skip 100))) ∨
       (drainStops backend skip = true ∧
         (fetchUsersLoop backend (fuel + 1) skip allFetchedUsers).isSome = true)) := by
  constructor
  · intro backend fuel
    induction fuel with
    | zero =>
      intro skip allFetchedUsers h
      simp only [Nat.add_zero] at h
      rw [fetchUsersLoop]
      cases hok : backend.okAt skip with
      | false => simp
      | true =>
        simp only [hok]
        rw [pageAt_eq_nil backend skip 100 h]
        simp [normalizeUsers]
    | succ fuel ih =>
      intro skip allFetchedUsers h
      rw [fetchUsersLoop]
      cases hok : backend.okAt skip with
      | false => simp
      | true =>
        simp only [hok]
        by_cases hlen : (normalizeUsers (pageAt backend skip 100)).length = 0
        · simp [hlen]
        · simp only [hlen, if_false]
          by_cases hmore : (backend.hasMoreAt skip ||
              (normalizeUsers (pageAt backend skip 100)).length == 100) = true
          · simp only [hmore, if_true]
            exact ih (skip + 100) (allFetchedUsers ++ normalizeUsers (pageAt backend skip 100))
              (by omega)
          · simp [hmore]
  · intro backend fuel skip allFetchedUsers
    cases hstop : drainStops backend skip with
    | false =>
      left
      refine ⟨rfl, ?_⟩
      simp only [drainStops, Bool.or_eq_false_iff, Bool.not_eq_false',
        Bool.and_eq_false_iff, Bool.not_eq_eq_eq_not, Bool.not_true, beq_eq_false_iff_ne,
        decide_eq_false_iff_not, Nat.not_lt] at hstop
      obtain ⟨⟨hok, hlen⟩, hcont⟩ := hstop
      rw [fetchUsersLoop]
      simp only [hok]
      have hlim : (normalizeUsers (pageAt backend skip 100)).length ≤ 100 :=
        le_trans (normalizeUsers_length_le _) (pageAt_length_le backend skip 100)
      have hrec : (backend.hasMoreAt skip ||
          (normalizeUsers (pageAt backend skip 100)).length == 100) = true := by
        cases hcont with
        | inl hmore => simp [hmore]
        | inr hge =>
          have : (normalizeUsers (pageAt backend skip 100)).length = 100 := le_antisymm hlim hge
          simp [this]
      simp [hlen, hrec]
    | true =>
      right
      refine ⟨rfl, ?_⟩
      simp only [drainStops, Bool.or_eq_true, Bool.not_eq_true', beq_iff_eq,
        Bool.and_eq_true, decide_eq_true_eq] at hstop
      rcases hstop with (hok | hlen) | ⟨hmore, hshort⟩
      · rw [fetchUsersLoop]
        simp [hok]
      · rw [fetchUsersLoop]
        simp [hlen]
      · rw [fetchUsersLoop]
        have hne : ((normalizeUsers (pageAt backend skip 100)).length == 100) = false := by
          simp
          omega
        by_cases hok : backend.okAt skip = false
        · simp [hok]
        · by_cases hlen : (normalizeUsers (pageAt backend skip 100)).length = 0
          · simp [hok, hlen]
          · simp [hok, hlen, hmore, hne]

/-- Witness for C8: on a two-user backend that always reports has-more,
fuel 3 (= table size + 1) suffices for the drain to finish. -/
theorem users_drain_termination_witness :
    (fetchUsersLoop twoUserBackend 3 0 []).isSome = true :=
  users_drain_termination.1 twoUserBackend 2 0 [] (by decide)
